import Mathlib

/-!
Verification of the perplexity-search MCP server.

Shallow embedding of the two near-duplicate server variants
(`src/index.ts` and the unnamed stdio variant): startup model validation,
the list-tools handler, and the call-tool dispatcher with its outbound
HTTP request, success mapping and error mapping.

JavaScript conventions embedded here:
* an optional object field is an `Option`: `none` means the field is
  entirely absent (the code only ever conditionally adds keys; it never
  writes `null` or an empty string into them);
* JS truthiness on strings (`if (s)`, `a || b`) treats the empty string
  as falsy, which is modelled explicitly;
* `JSON.stringify(x, null, 2)` is embedded for the fixed two-field shape
  the code serializes.
-/

namespace PerplexitySearch

/-- A chat message, as placed in the outbound request body:
`{role: "user", content: query}`. -/
structure Message where
  role : String
  content : String
deriving DecidableEq, Repr

/-- The outbound JSON payload built by the handler.  `search_recency_filter`
is `none` when the key is absent from the object. -/
structure Payload where
  model : String
  messages : List Message
  max_tokens : Nat
  temperature : ℚ
  search_recency_filter : Option String
deriving DecidableEq, Repr

/-- The headers attached to the outbound `axios.post` call. -/
structure HttpHeaders where
  authorization : String
  contentType : String
deriving DecidableEq, Repr

/-- One outbound HTTP POST as issued by `axios.post(url, payload, {headers})`. -/
structure OutboundPost where
  url : String
  headers : HttpHeaders
  body : Payload
deriving DecidableEq, Repr

/-- The `message` object inside an upstream choice: `{message: {content}}`. -/
structure RespMessage where
  content : String
deriving DecidableEq, Repr

/-- One element of the upstream `choices` array. -/
structure Choice where
  message : RespMessage
deriving DecidableEq, Repr

/-- The body of a 2xx upstream response: `{choices?, citations?}`.  Both
fields are optional at runtime (the code reads them from an untyped value). -/
structure SuccessData where
  choices : Option (List Choice)
  citations : Option (List String)
deriving DecidableEq, Repr

/-- The typed upstream error body `PerplexityErrorResponse`
(`{error?: string, message?: string}`) from the source. -/
structure ErrorBody where
  error : Option String
  message : Option String
deriving DecidableEq, Repr

/-- An axios (HTTP-layer) error: `response` models `axiosError.response?.data`
(`none` when no response arrived), `message` is the transport error text. -/
structure AxiosErrorT where
  response : Option ErrorBody
  message : String
deriving DecidableEq, Repr

/-- A JavaScript exception reaching the `catch` block: either an HTTP-layer
error recognized by `axios.isAxiosError`, or any other thrown value. -/
inductive JsError where
  | axiosErr (e : AxiosErrorT)
  | other (msg : String)
deriving DecidableEq, Repr

/-- The outcome of the awaited `axios.post` call, supplied by the
environment: a 2xx response with its decoded body, or a thrown error. -/
inductive CallOutcome where
  | success (data : SuccessData)
  | failure (e : JsError)
deriving DecidableEq, Repr

/-- One text content block of a tool response: `{type: "text", text}`. -/
structure TextBlock where
  type : String
  text : String
deriving DecidableEq, Repr

/-- A tool-invocation response object.  `isError := none` embeds the success
branch, whose returned object carries no `isError` key at all. -/
structure ToolResponse where
  content : List TextBlock
  isError : Option Bool
deriving DecidableEq, Repr

/-- MCP protocol error codes used by the dispatcher. -/
inductive ErrorCode where
  | methodNotFound
deriving DecidableEq, Repr

/-- How a call-tool invocation ends at the dispatcher boundary:
a returned response object, a thrown `McpError` (a protocol-level error the
transport serializes as a per-request JSON-RPC error), or any other
exception propagating unhandled across the dispatcher. -/
inductive HandlerResult where
  | response (r : ToolResponse)
  | mcpError (code : ErrorCode) (msg : String)
  | thrown (e : JsError)
deriving DecidableEq, Repr

/-- The dispatcher result together with the trace of outbound HTTP calls
issued while handling the request. -/
structure HandlerOutput where
  result : HandlerResult
  posts : List OutboundPost
deriving DecidableEq, Repr

/-- The process-wide configuration: the validated model name and the
`PERPLEXITY_API_KEY` credential. -/
structure ServerConfig where
  model : String
  apiKey : String
deriving DecidableEq, Repr

/-- The arguments object of a `search` invocation, as produced by the
source code cast `as {query: string; search_recency_filter?: string}`. -/
structure SearchArgs where
  query : String
  search_recency_filter : Option String
deriving DecidableEq, Repr

/-- The fixed token limit, `this.maxTokens = 8192` in the source. -/
def maxTokens : Nat := 8192

/-- The fixed sampling temperature, `this.temperature = 0.2` in the source. -/
def temperature : ℚ := 0.2

/-- JS truthiness of a possibly-absent string value: absent and the empty
string are falsy. -/
def truthy : Option String → Bool
  | none => false
  | some s => s ≠ ""

/-- JS `a || b` for a possibly-absent string `a`: yields `a`'s value when it
is present and non-empty, else `b`. -/
def jsOrStr (a : Option String) (b : String) : String :=
  match a with
  | some s => if s = "" then b else s
  | none => b

/-- Lowercase hexadecimal digit, as emitted by `JSON.stringify` in
`\u00XX` escapes. -/
def hexDigit (n : Nat) : Char :=
  if n < 10 then Char.ofNat (48 + n) else Char.ofNat (87 + n)

/-- The escaping `JSON.stringify` applies inside a JSON string literal. -/
def jsonEscapeChar (c : Char) : String :=
  if c = '\x22' then "\\\""
  else if c = '\\' then "\\\\"
  else if c = '\x08' then "\\b"
  else if c = '\x0c' then "\\f"
  else if c = '\n' then "\\n"
  else if c = '\x0d' then "\\r"
  else if c = '\t' then "\\t"
  else if c.toNat < 32 then
    "\\u00" ++ String.singleton (hexDigit (c.toNat / 16)) ++
      String.singleton (hexDigit (c.toNat % 16))
  else String.singleton c

/-- A JSON string literal for `s`, with `JSON.stringify` escaping. -/
def jsonQuote (s : String) : String :=
  "\x22" ++ String.join (s.data.map jsonEscapeChar) ++ "\x22"

/-- The exact text produced by
`JSON.stringify({content, citations}, null, 2)` for the
`formattedResponse` object (2-space indent, empty array inline). -/
def stringifyFormatted (content : String) (citations : List String) : String :=
  "\x7b\n  \x22content\x22: " ++ jsonQuote content ++
    ",\n  \x22citations\x22: " ++
    (if citations.isEmpty then "[]"
     else "[\n    " ++ String.intercalate ",\n    " (citations.map jsonQuote) ++
       "\n  ]") ++
    "\n\x7d"

/-- The payload object built in the `try` block: fixed model, a single
user-role message with the raw query, `max_tokens`, `temperature`, and the
recency key added only when the argument is truthy
(`if (search_recency_filter) payload.search_recency_filter = ...`). -/
def buildPayload (model : String) (args : SearchArgs) : Payload :=
  { model := model
    messages := [{ role := "user", content := args.query }]
    max_tokens := maxTokens
    temperature := temperature
    search_recency_filter :=
      if truthy args.search_recency_filter then args.search_recency_filter
      else none }

/-- The single outbound call
`axios.post("https://api.perplexity.ai/chat/completions", payload, {headers})`
with the bearer credential from the environment. -/
def outboundPost (cfg : ServerConfig) (args : SearchArgs) : OutboundPost :=
  { url := "https://api.perplexity.ai/chat/completions"
    headers := { authorization := "Bearer " ++ cfg.apiKey
                 contentType := "application/json" }
    body := buildPayload cfg.model args }

/-- JS fault raised by `response.data.choices[0]` when `choices` is absent. -/
def typeErrorNoChoices : String :=
  "TypeError: Cannot read properties of undefined (reading 0)"

/-- JS fault raised by `response.data.choices[0].message` when `choices`
is the empty array, so that `choices[0]` is `undefined`. -/
def typeErrorEmptyChoices : String :=
  "TypeError: Cannot read properties of undefined (reading message)"

/-- The body of the `try` block after the outbound call resolved or threw:
on success, format `{content: choices[0].message.content,
citations: data.citations || []}` as one text block (`Option.getD []`
embeds `|| []`, since in JS an array — even empty — is truthy);
dereferencing the first choice of an empty or absent `choices` list raises
a `TypeError`, embedded as a thrown non-axios error. -/
def tryBlock (outcome : CallOutcome) : Except JsError ToolResponse :=
  match outcome with
  | .success data =>
    match data.choices with
    | some (c :: _) =>
      .ok { content := [⟨"text",
              stringifyFormatted c.message.content (data.citations.getD [])⟩],
            isError := none }
    | some [] => .error (.other typeErrorEmptyChoices)
    | none => .error (.other typeErrorNoChoices)
  | .failure e => .error e

/-- The error message selected in the `catch` block:
`errorData?.error || errorData?.message || axiosError.message`. -/
def errorMessage (e : AxiosErrorT) : String :=
  jsOrStr (e.response.bind ErrorBody.error)
    (jsOrStr (e.response.bind ErrorBody.message) e.message)

/-- The `catch` block: an axios error is recovered into a response whose
single text block is `"Perplexity API error: <message>"` with
`isError: true`; any other error is rethrown (`throw error`). -/
def catchClause (e : JsError) : Except JsError ToolResponse :=
  match e with
  | .axiosErr a =>
    .ok { content := [⟨"text", "Perplexity API error: " ++ errorMessage a⟩],
          isError := some true }
  | .other m => .error (.other m)

/-- The `CallToolRequestSchema` handler: dispatch on the tool name; for
`"search"`, issue the one outbound call and run the try/catch; for any
other name, throw `McpError(ErrorCode.MethodNotFound, ...)` without any
outbound call. -/
def handleCallTool (cfg : ServerConfig) (name : String) (args : SearchArgs)
    (outcome : CallOutcome) : HandlerOutput :=
  if name = "search" then
    { result :=
        match tryBlock outcome with
        | .ok r => .response r
        | .error e =>
          match catchClause e with
          | .ok r => .response r
          | .error e₂ => .thrown e₂
      posts := [outboundPost cfg args] }
  else
    { result := .mcpError .methodNotFound ("Unknown tool: " ++ name)
      posts := [] }

/-- Models the MCP SDK transport contract for the dispatcher boundary:
a returned response and a thrown `McpError` are serialized as a reply to
that request only, leaving the connection open; any other exception reaches
the transport top-level error handler instead. -/
def connectionSurvives : HandlerResult → Bool
  | .response _ => true
  | .mcpError _ _ => true
  | .thrown _ => false

/-- One property of the tool input schema: name, JSON type, and optional
enum constraint. -/
structure SchemaProperty where
  name : String
  type : String
  description : String
  enum : Option (List String)
deriving DecidableEq, Repr

/-- The declared input schema of a tool. -/
structure InputSchema where
  type : String
  properties : List SchemaProperty
  required : List String
deriving DecidableEq, Repr

/-- A tool descriptor as returned by the list-tools handler. -/
structure ToolDescriptor where
  name : String
  description : String
  inputSchema : InputSchema
deriving DecidableEq, Repr

/-- The single static tool manifest entry from the source. -/
def searchToolDescriptor : ToolDescriptor :=
  { name := "search"
    description := "Perform a web search using Perplexity\x27s API, which provides detailed and contextually relevant results with citations. By default, no time filtering is applied to search results."
    inputSchema :=
      { type := "object"
        properties :=
          [{ name := "query"
             type := "string"
             description := "The search query to perform"
             enum := none },
           { name := "search_recency_filter"
             type := "string"
             description := "Filter search results by recency (options: month, week, day, hour). If not specified, no time filtering is applied."
             enum := some ["month", "week", "day", "hour"] }]
        required := ["query"] } }

/-- The `ListToolsRequestSchema` handler: ignores its request and returns
the one-element manifest. -/
def handleListTools (_request : Unit) : List ToolDescriptor :=
  [searchToolDescriptor]

/-- The model value read at startup,
`modelIndex !== -1 ? process.argv[modelIndex + 1] : "sonar-pro"`:
the value following the first `--model` flag (absent when the flag is the
last argument, modelling JS `undefined`), defaulting to `"sonar-pro"`. -/
def parseModel (argv : List String) : Option String :=
  match argv.findIdx? (· == "--model") with
  | some i => argv.get? (i + 1)
  | none => some "sonar-pro"

/-- The startup validation error text. -/
def invalidModelError : String :=
  "Invalid model. Must be either \x22sonar\x22 or \x22sonar-pro\x22"

/-- Marker events of a successful startup; transport binding
(`server.connect(transport)` / `app.listen`) happens only after
construction succeeds. -/
inductive StartupEvent where
  | transportBound
deriving DecidableEq, Repr

/-- A constructed, running server: its configuration and the startup
events that occurred. -/
structure RunningServer where
  config : ServerConfig
  events : List StartupEvent
deriving DecidableEq, Repr

/-- Process startup: read the model from `argv`, throw
`Invalid model ...` unless it is `"sonar"` or `"sonar-pro"`
(`!["sonar", "sonar-pro"].includes(model)`), then construct the server and
bind the transport.  An `.error` result means the process terminates
before any transport binding and before any request is served. -/
def startup (argv : List String) (apiKey : String) :
    Except String RunningServer :=
  match parseModel argv with
  | some m =>
    if m ∈ (["sonar", "sonar-pro"] : List String) then
      .ok { config := { model := m, apiKey := apiKey }
            events := [.transportBound] }
    else .error invalidModelError
  | none => .error invalidModelError

/-- The text of the first content block of a returned response, when the
handler returned one. -/
def firstText (o : HandlerOutput) : Option String :=
  match o.result with
  | .response r => r.content.head?.map TextBlock.text
  | _ => none

/-- Whether the dispatcher returned a normal (non-thrown) response. -/
def isNormalResponse : HandlerResult → Bool
  | .response _ => true
  | _ => false

/-- Formalization of the spec sentence, literally as stated, for comparison
with the code: the error message is the upstream `error` field if present,
else the upstream `message` field if present, else the transport error
text.  Presence alone decides, regardless of the value. -/
def specPriorityMessage (e : AxiosErrorT) : String :=
  match e.response.bind ErrorBody.error with
  | some s => s
  | none =>
    match e.response.bind ErrorBody.message with
    | some s => s
    | none => e.message

/-- The fallback of the amended priority rule: the upstream `message` field
when present and non-empty, else the transport error text. -/
def specMessageFallbackNE (e : AxiosErrorT) : String :=
  match e.response.bind ErrorBody.message with
  | some s => if s = "" then e.message else s
  | none => e.message

/-- The amended priority rule, written from the spec wording with the
qualifier the code forces: a field is used only when present and
non-empty. -/
def specPriorityMessageNE (e : AxiosErrorT) : String :=
  match e.response.bind ErrorBody.error with
  | some s => if s = "" then specMessageFallbackNE e else s
  | none => specMessageFallbackNE e

/-- The JS truthiness chain of the code agrees with the amended
present-and-non-empty priority rule. -/
theorem errorMessage_eq_specNE (e : AxiosErrorT) :
    errorMessage e = specPriorityMessageNE e := by
  cases hc₁ : e.response.bind ErrorBody.error <;>
    cases hc₂ : e.response.bind ErrorBody.message <;>
      simp [errorMessage, specPriorityMessageNE, specMessageFallbackNE,
        jsOrStr, hc₁, hc₂]

/-- A concrete configuration for witnesses. -/
def cfg₀ : ServerConfig := { model := "sonar-pro", apiKey := "KEY" }

/-- A concrete search-arguments value with no recency filter. -/
def args₀ : SearchArgs :=
  { query := "capital of France", search_recency_filter := none }

/-- A 2xx upstream body with one choice and no `citations` field. -/
def successDataParis : SuccessData :=
  { choices := some [⟨⟨"Paris"⟩⟩], citations := none }

/-- A 2xx upstream body with one choice, used by the C3 counterexample. -/
def successDataOk : SuccessData :=
  { choices := some [⟨⟨"ok"⟩⟩], citations := some [] }

/-- A 2xx upstream body whose `choices` list is empty. -/
def successDataEmptyChoices : SuccessData :=
  { choices := some [], citations := none }

/-- An axios error whose upstream body carries an empty-string `error`
field next to a non-empty `message` field. -/
def axiosErrorEmptyField : AxiosErrorT :=
  { response := some { error := some "", message := some "bad key" },
    message := "Request failed with status code 401" }

/-- The arguments of a search call carrying the non-enum recency value
`"year"`. -/
def argsYear : SearchArgs :=
  { query := "latest news", search_recency_filter := some "year" }

/-- A command line selecting an unrecognized model. -/
def argvFoo : List String := ["node", "index.js", "--model", "foo"]

/-- C1: on a 2xx upstream response with a non-empty `choices` list, the
handler returns (without error flag) a single text block holding the
2-space-indented JSON serialization of `{content: first choice message
content, citations: top-level citations defaulting to []}`. -/
theorem claim_C1_success_mapping (cfg : ServerConfig) (args : SearchArgs)
    (data : SuccessData) (c : Choice) (rest : List Choice)
    (h : data.choices = some (c :: rest)) :
    (handleCallTool cfg "search" args (.success data)).result =
      .response { content := [⟨"text",
                    stringifyFormatted c.message.content
                      (data.citations.getD [])⟩],
                  isError := none } := by
  simp [handleCallTool, tryBlock, h]

/-- Witness for C1 at a concrete input: one choice `"Paris"` and an absent
`citations` field, which the handler serializes as the empty list. -/
theorem claim_C1_witness :
    (handleCallTool cfg₀ "search" args₀ (.success successDataParis)).result =
      .response { content := [⟨"text", stringifyFormatted "Paris" []⟩],
                  isError := none } :=
  claim_C1_success_mapping cfg₀ args₀ successDataParis ⟨⟨"Paris"⟩⟩ [] rfl

/-- C2 counterexample: with an upstream body whose `error` field is present
but empty (`{error: "", message: "bad key"}`), the code's JS truthiness
chain answers `"Perplexity API error: bad key"`, while the claim's
priority rule ("the error field if present") prescribes the empty message,
so the claim as stated fails at this input. -/
theorem claim_C2_counterexample :
    firstText (handleCallTool cfg₀ "search" args₀
        (.failure (.axiosErr axiosErrorEmptyField))) =
      some "Perplexity API error: bad key" ∧
    specPriorityMessage axiosErrorEmptyField = "" ∧
    "Perplexity API error: bad key" ≠
      "Perplexity API error: " ++ specPriorityMessage axiosErrorEmptyField := by
  refine ⟨rfl, rfl, ?_⟩
  decide

/-- C2 amended: on an HTTP-layer (axios) error the handler returns (does
not throw) a single text block reading `"Perplexity API error: "` followed
by the message chosen by priority — the upstream `error` field if present
and non-empty, else the upstream `message` field if present and non-empty,
else the transport error's own message — with the error flag set. -/
theorem claim_C2_amended (cfg : ServerConfig) (args : SearchArgs)
    (e : AxiosErrorT) :
    (handleCallTool cfg "search" args (.failure (.axiosErr e))).result =
      .response { content := [⟨"text",
                    "Perplexity API error: " ++ specPriorityMessageNE e⟩],
                  isError := some true } := by
  have h := errorMessage_eq_specNE e
  simp [handleCallTool, tryBlock, catchClause, h]

/-- C3 counterexample: invoking search with the non-enum recency value
`"year"` is not rejected — the outbound call is issued, its payload
carries `search_recency_filter: "year"`, and the handler returns a normal
response. -/
theorem claim_C3_counterexample :
    ((handleCallTool cfg₀ "search" argsYear (.success successDataOk)).posts.map
        fun p => p.body.search_recency_filter) = [some "year"] ∧
    isNormalResponse
      (handleCallTool cfg₀ "search" argsYear (.success successDataOk)).result
        = true := by
  exact ⟨rfl, rfl⟩

/-- C3 amended: whenever `recencyFilter` is present with a non-empty value
— inside the advertised enum or not — the outbound payload carries that
exact value in `search_recency_filter`; no validation or rejection happens
before the outbound call. -/
theorem claim_C3_amended (cfg : ServerConfig) (q s : String)
    (outcome : CallOutcome) (h : s ≠ "") :
    ((handleCallTool cfg "search"
        { query := q, search_recency_filter := some s } outcome).posts.map
          fun p => p.body.search_recency_filter) = [some s] := by
  simp [handleCallTool, outboundPost, buildPayload, truthy, h]

/-- Witness for C3 amended: the enum token `"month"` is carried verbatim. -/
theorem claim_C3_witness :
    ((handleCallTool cfg₀ "search"
        { query := "latest news", search_recency_filter := some "month" }
        (.failure (.other "net down"))).posts.map
          fun p => p.body.search_recency_filter) = [some "month"] :=
  claim_C3_amended cfg₀ "latest news" "month" (.failure (.other "net down"))
    (by decide)

/-- C4: when `recencyFilter` is absent from the arguments, the outbound
payload has no `search_recency_filter` key at all (`none` embeds complete
absence of the key: the code only conditionally adds it and never writes
`null` or an empty string). -/
theorem claim_C4_recency_absent (cfg : ServerConfig) (q : String)
    (outcome : CallOutcome) :
    ((handleCallTool cfg "search"
        { query := q, search_recency_filter := none } outcome).posts.map
          fun p => p.body.search_recency_filter) = [none] := rfl

/-- C5: a tool-invocation request whose name is not `"search"` fails with
a thrown `McpError(MethodNotFound)` — which the transport serializes as a
per-request protocol error, leaving the connection open — and issues no
outbound call. -/
theorem claim_C5_unknown_tool (cfg : ServerConfig) (name : String)
    (args : SearchArgs) (outcome : CallOutcome) (h : name ≠ "search") :
    (handleCallTool cfg name args outcome).result =
        .mcpError .methodNotFound ("Unknown tool: " ++ name) ∧
      (handleCallTool cfg name args outcome).posts = [] ∧
      connectionSurvives (handleCallTool cfg name args outcome).result
        = true := by
  unfold handleCallTool
  rw [if_neg h]
  exact ⟨rfl, rfl, rfl⟩

/-- Witness for C5 at the concrete unknown tool name `"not-a-tool"`. -/
theorem claim_C5_witness :
    (handleCallTool cfg₀ "not-a-tool" args₀ (.failure (.other "x"))).result =
        .mcpError .methodNotFound ("Unknown tool: " ++ "not-a-tool") ∧
      (handleCallTool cfg₀ "not-a-tool" args₀ (.failure (.other "x"))).posts
        = [] ∧
      connectionSurvives
        (handleCallTool cfg₀ "not-a-tool" args₀
          (.failure (.other "x"))).result = true :=
  claim_C5_unknown_tool cfg₀ "not-a-tool" args₀ (.failure (.other "x"))
    (by decide)

/-- C6: every search invocation issues exactly one outbound POST, to the
fixed completions URL, with the bearer credential, whose body carries the
configured model, a single user-role message holding the raw query,
`max_tokens` 8192 and `temperature` 0.2; the body carries a
`search_recency_filter` value only if that value was provided. -/
theorem claim_C6_outbound_request (cfg : ServerConfig) (q : String)
    (recency : Option String) (outcome : CallOutcome) :
    ((handleCallTool cfg "search"
        { query := q, search_recency_filter := recency } outcome).posts.map
        fun p => (p.url, p.headers.authorization, p.body.model,
          p.body.messages, p.body.max_tokens, p.body.temperature)) =
      [("https://api.perplexity.ai/chat/completions",
        "Bearer " ++ cfg.apiKey, cfg.model,
        [{ role := "user", content := q }], 8192, (0.2 : ℚ))] ∧
    ∀ s, ((handleCallTool cfg "search"
        { query := q, search_recency_filter := recency } outcome).posts.map
          fun p => p.body.search_recency_filter) = [some s] →
      recency = some s := by
  constructor
  · rfl
  · intro s hs
    have h₃ : ([if truthy recency then recency else none] :
        List (Option String)) = [some s] := hs
    cases recency with
    | none => simp [truthy] at h₃
    | some t =>
      by_cases ht : t = ""
      · simp [truthy, ht] at h₃
      · simpa [truthy, ht] using h₃

/-- Witness for C6 at a concrete invocation with no recency filter. -/
theorem claim_C6_witness :
    ((handleCallTool cfg₀ "search"
        { query := "capital of France", search_recency_filter := none }
        (.failure (.other "boom"))).posts.map
        fun p => (p.url, p.headers.authorization, p.body.model,
          p.body.messages, p.body.max_tokens, p.body.temperature)) =
      [("https://api.perplexity.ai/chat/completions",
        "Bearer " ++ cfg₀.apiKey, cfg₀.model,
        [{ role := "user", content := "capital of France" }], 8192,
        (0.2 : ℚ))] :=
  (claim_C6_outbound_request cfg₀ "capital of France" none
    (.failure (.other "boom"))).1

/-- C7: when the model value read from the command line (defaulting to
`"sonar-pro"` when the flag is absent) is neither `"sonar"` nor
`"sonar-pro"`, startup fails with the invalid-model error, so no server is
constructed, no transport is bound and no request is served. -/
theorem claim_C7_model_validation (argv : List String) (apiKey : String)
    (h₁ : parseModel argv ≠ some "sonar")
    (h₂ : parseModel argv ≠ some "sonar-pro") :
    startup argv apiKey = .error invalidModelError := by
  unfold startup
  cases hp : parseModel argv with
  | none => rfl
  | some m =>
    have hm₁ : m ≠ "sonar" := fun e => h₁ (hp.trans (by rw [e]))
    have hm₂ : m ≠ "sonar-pro" := fun e => h₂ (hp.trans (by rw [e]))
    simp [hm₁, hm₂]

/-- Witness for C7: starting with `--model foo` fails. -/
theorem claim_C7_witness : startup argvFoo "KEY" = .error invalidModelError :=
  claim_C7_model_validation argvFoo "KEY" (by decide) (by decide)

/-- C8: the list-tools handler is pure — any two calls return the same
result — and always returns the single descriptor named `"search"`, whose
schema requires exactly the string field `query` and offers the optional
string field `search_recency_filter` constrained to the enum
`month | week | day | hour`. -/
theorem claim_C8_list_tools (r₁ r₂ : Unit) :
    handleListTools r₁ = handleListTools r₂ ∧
    handleListTools r₁ = [searchToolDescriptor] ∧
    searchToolDescriptor.name = "search" ∧
    searchToolDescriptor.inputSchema.required = ["query"] ∧
    (searchToolDescriptor.inputSchema.properties.map
      fun p => (p.name, p.type)) =
      [("query", "string"), ("search_recency_filter", "string")] ∧
    (searchToolDescriptor.inputSchema.properties.map fun p => p.enum) =
      [none, some ["month", "week", "day", "hour"]] :=
  ⟨rfl, rfl, rfl, rfl, rfl, rfl⟩

/-- C9: an exception from the outbound call that is not an HTTP-layer
(axios) error is rethrown by the catch block and propagates unhandled out
of the dispatcher; no response object is returned. -/
theorem claim_C9_non_http_propagates (cfg : ServerConfig)
    (args : SearchArgs) (msg : String) :
    (handleCallTool cfg "search" args (.failure (.other msg))).result =
      .thrown (.other msg) := rfl

/-- C10: on a 2xx upstream response whose `choices` list is empty or
absent, dereferencing the first choice raises a `TypeError`; being no
axios error, it escapes the catch block and propagates out of the
dispatcher as a thrown non-HTTP error instead of a response. -/
theorem claim_C10_empty_choices (cfg : ServerConfig) (args : SearchArgs)
    (data : SuccessData)
    (h : data.choices = none ∨ data.choices = some []) :
    ∃ m, (handleCallTool cfg "search" args (.success data)).result =
      .thrown (.other m) := by
  rcases h with h | h
  · exact ⟨typeErrorNoChoices, by simp [handleCallTool, tryBlock, catchClause, h]⟩
  · exact ⟨typeErrorEmptyChoices, by simp [handleCallTool, tryBlock, catchClause, h]⟩

/-- Witness for C10 at the concrete upstream body `{choices: []}`. -/
theorem claim_C10_witness :
    ∃ m, (handleCallTool cfg₀ "search" args₀
        (.success successDataEmptyChoices)).result = .thrown (.other m) :=
  claim_C10_empty_choices cfg₀ args₀ successDataEmptyChoices (Or.inr rfl)

end PerplexitySearch
